import Mathlib

/-!
Verification development for the license-plate reading / ad-campaign system
(two AWS Lambda handlers: process_readings and query_metrics).

The Python sources are shallowly embedded: JSON-like request payloads become
the inductive type `PyVal`; the runtime coercions `float(...)` and `int(...)`
become executable partial parsers returning `Option`; exceptions raised and
caught by the source become `Except` / `Option` results; the relational store
becomes an explicit state record with the SQL statements as pure operations
on it; concurrent requests against the store become an explicit interleaving
semantics over atomic store operations.

Numbers are modelled as exact scaled decimals `mant / 10 ^ exp` (every JSON
decimal literal is of this shape), with comparisons performed exactly by
cross multiplication, so that all definitions evaluate by kernel reduction.
-/

/-- Exact decimal number with value `mant / 10 ^ exp`. -/
structure Dec where
  mant : Int
  exp : Nat
deriving DecidableEq

/-- Exact order test `a < b` on scaled decimals, by cross multiplication. -/
def Dec.blt (a b : Dec) : Bool :=
  a.mant * 10 ^ b.exp < b.mant * 10 ^ a.exp

/-- Integer scaled decimal. -/
def Dec.ofInt (n : Int) : Dec := ⟨n, 0⟩

/-- Rational value denoted by a scaled decimal. -/
def Dec.toRat (d : Dec) : ℚ := (d.mant : ℚ) / 10 ^ d.exp

/-- Embedding of the Python/JSON values a request payload can carry. -/
inductive PyVal where
  | vstr : String → PyVal
  | vnum : Dec → PyVal
  | vbool : Bool → PyVal
  | vnone : PyVal
  | vdict : List (String × PyVal) → PyVal
  | vlist : List PyVal → PyVal

/-- Dictionary lookup: Python `d[k]` together with `k in d` on a
string-keyed dict (`none` exactly when the key is absent). -/
def dictGet (d : List (String × PyVal)) (k : String) : Option PyVal :=
  (d.find? (fun p => p.1 == k)).map (fun p => p.2)

/-- Numeric value of a decimal-digit list, most significant first. -/
def natOfDigits (cs : List Char) : Nat :=
  cs.foldl (fun acc c => acc * 10 + (c.toNat - 48)) 0

/-- Parse a non-empty all-digit list of characters; `none` otherwise. -/
def parseDigits (cs : List Char) : Option Nat :=
  if cs.isEmpty then none
  else if cs.all (fun c => c.isDigit) then some (natOfDigits cs) else none

/-- Strip leading and trailing whitespace from a character list. -/
def stripWs (cs : List Char) : List Char :=
  ((cs.dropWhile (fun c => c.isWhitespace)).reverse.dropWhile
    (fun c => c.isWhitespace)).reverse

/-- Embedding of Python `int(s)` on a string: optional surrounding
whitespace, optional sign, decimal digits; raises (here `none`) otherwise. -/
def pyIntOfChars (cs : List Char) : Option Int :=
  match stripWs cs with
  | '+' :: rest => (parseDigits rest).map (fun n => (n : Int))
  | '-' :: rest => (parseDigits rest).map (fun n => -(n : Int))
  | rest => (parseDigits rest).map (fun n => (n : Int))

/-- Exponent suffix of a Python float literal applied to an already parsed
mantissa: empty, or `e`/`E` with an optional sign and digits. -/
def parseExp (d : Dec) : List Char → Option Dec
  | [] => some d
  | c :: rest =>
    if c = 'e' ∨ c = 'E' then
      match rest with
      | '+' :: ds => (parseDigits ds).map (fun n => ⟨d.mant * 10 ^ n, d.exp⟩)
      | '-' :: ds => (parseDigits ds).map (fun n => ⟨d.mant, d.exp + n⟩)
      | ds => (parseDigits ds).map (fun n => ⟨d.mant * 10 ^ n, d.exp⟩)
    else none

/-- Unsigned part of a Python float literal: digits with an optional point
and optional exponent; at least one digit must be present. -/
def parseFloatCore (cs : List Char) : Option Dec :=
  match cs.span (fun c => c.isDigit) with
  | (intPart, '.' :: rest2) =>
    (match rest2.span (fun c => c.isDigit) with
     | (fracPart, rest3) =>
       if intPart.isEmpty ∧ fracPart.isEmpty then none
       else if (intPart ++ fracPart).all (fun c => c.isDigit) then
         parseExp ⟨(natOfDigits (intPart ++ fracPart) : Int), fracPart.length⟩ rest3
       else none)
  | (intPart, rest) =>
    match parseDigits intPart with
    | none => none
    | some n => parseExp ⟨(n : Int), 0⟩ rest

/-- Embedding of Python `float(s)` on a string (decimal subset: optional
whitespace and sign, digits with optional point and exponent; the special
literals nan and inf are not modelled, no claim depends on them). -/
def pyFloatOfChars (cs : List Char) : Option Dec :=
  match stripWs cs with
  | '+' :: rest => parseFloatCore rest
  | '-' :: rest => (parseFloatCore rest).map (fun d => ⟨-d.mant, d.exp⟩)
  | rest => parseFloatCore rest

/-- Embedding of Python `float(x)` on an arbitrary value: numbers pass
through, booleans coerce to 0 or 1, numeric strings parse; everything else
raises ValueError or TypeError, modelled as `none`. -/
def pyFloat : PyVal → Option Dec
  | .vnum d => some d
  | .vbool b => some (.ofInt (if b then 1 else 0))
  | .vstr s => pyFloatOfChars s.toList
  | _ => none

/-- Embedding of Python `int(x)` on an arbitrary value: ints and floats
truncate toward zero, booleans coerce, integer strings parse; everything
else raises, modelled as `none`. -/
def pyInt : PyVal → Option Int
  | .vnum d => some (d.mant.tdiv ((10 : Int) ^ d.exp))
  | .vbool b => some (if b then 1 else 0)
  | .vstr s => pyIntOfChars s.toList
  | _ => none

namespace ProcessReadings

/-- Model of the string method `.replace("Z", "+00:00")` used on timestamps
(single-character pattern, so per-character substitution is exact). -/
def replaceZ (cs : List Char) : List Char :=
  cs.flatMap (fun c => if c = 'Z' then ['+', '0', '0', ':', '0', '0'] else [c])

/-- Offset tail of an ISO-8601 string: empty, or a sign followed by HH:MM. -/
def isoOffsetOk : List Char → Bool
  | [] => true
  | s :: rest =>
    (s = '+' || s = '-') &&
    (match rest with
     | [h1, h2, ':', m1, m2] =>
       h1.isDigit && h2.isDigit && m1.isDigit && m2.isDigit
     | _ => false)

/-- Optional seconds (with optional fraction) then offset tail. -/
def isoSecondsOk : List Char → Bool
  | ':' :: s1 :: s2 :: rest =>
    s1.isDigit && s2.isDigit &&
    (match rest with
     | '.' :: rest2 =>
       (match rest2.span (fun c => c.isDigit) with
        | (frac, rest3) => !frac.isEmpty && isoOffsetOk rest3)
     | rest2 => isoOffsetOk rest2)
  | rest => isoOffsetOk rest

/-- Time-of-day part HH:MM with optional seconds, fraction and offset. -/
def isoTimeOk : List Char → Bool
  | h1 :: h2 :: ':' :: m1 :: m2 :: rest =>
    h1.isDigit && h2.isDigit && m1.isDigit && m2.isDigit && isoSecondsOk rest
  | _ => false

/-- Model of the stdlib primitive `datetime.fromisoformat` as a recognizer
(the caller has already replaced a trailing Z by +00:00): a YYYY-MM-DD date,
optionally followed by a separator and a time of day with optional offset.
Only acceptance matters to the claims, not the parsed instant. -/
def isoOk (cs : List Char) : Bool :=
  match cs with
  | y1 :: y2 :: y3 :: y4 :: '-' :: mo1 :: mo2 :: '-' :: d1 :: d2 :: rest =>
    [y1, y2, y3, y4, mo1, mo2, d1, d2].all (fun c => c.isDigit) &&
    (1 ≤ (mo1.toNat - 48) * 10 + (mo2.toNat - 48)) &&
    ((mo1.toNat - 48) * 10 + (mo2.toNat - 48) ≤ 12) &&
    (1 ≤ (d1.toNat - 48) * 10 + (d2.toNat - 48)) &&
    ((d1.toNat - 48) * 10 + (d2.toNat - 48) ≤ 31) &&
    (match rest with
     | [] => true
     | sep :: t => (sep = 'T' || sep = ' ') && isoTimeOk t)
  | _ => false

/-- Non-empty-string check used by validate_reading: Python
`isinstance(x, str) and len(x) > 0`. -/
def isNonEmptyStr : PyVal → Bool
  | .vstr s => !s.isEmpty
  | _ => false

/-- Required fields of a reading, in the order the source checks them. -/
def required_fields : List String :=
  ["reading_id", "timestamp", "license_plate", "checkpoint_id", "location"]

/-- Embedding of validate_reading from process_readings/app.py: runs the
checks in source order, returns (is_valid, error message). Every operation
the source guards with try/except (float coercion, the .replace call on a
non-string timestamp, ISO parsing) is modelled by the corresponding total
parser, so the function is total on arbitrary dictionaries. -/
def validate_reading (reading : List (String × PyVal)) : Bool × Option String :=
  match required_fields.find? (fun f => (dictGet reading f).isNone) with
  | some f => (false, some ("Missing required field: " ++ f))
  | none =>
    if !isNonEmptyStr ((dictGet reading "reading_id").getD .vnone) then
      (false, some "Invalid reading_id: must be a non-empty string")
    else if !isNonEmptyStr ((dictGet reading "license_plate").getD .vnone) then
      (false, some "Invalid license_plate: must be a non-empty string")
    else if !isNonEmptyStr ((dictGet reading "checkpoint_id").getD .vnone) then
      (false, some "Invalid checkpoint_id: must be a non-empty string")
    else
      match (dictGet reading "location").getD .vnone with
      | .vdict loc =>
        if (dictGet loc "latitude").isNone || (dictGet loc "longitude").isNone then
          (false, some "Invalid location: must contain latitude and longitude")
        else
          match pyFloat ((dictGet loc "latitude").getD .vnone),
                pyFloat ((dictGet loc "longitude").getD .vnone) with
          | some lat, some lng =>
            if Dec.blt lat (.ofInt (-90)) || Dec.blt (.ofInt 90) lat then
              (false, some "Invalid latitude: must be between -90 and 90")
            else if Dec.blt lng (.ofInt (-180)) || Dec.blt (.ofInt 180) lng then
              (false, some "Invalid longitude: must be between -180 and 180")
            else
              match (dictGet reading "timestamp").getD .vnone with
              | .vstr ts =>
                if isoOk (replaceZ ts.toList) then (true, none)
                else (false, some "Invalid timestamp: must be in ISO 8601 format (YYYY-MM-DDTHH:MM:SSZ)")
              | _ =>
                (false, some "Invalid timestamp: must be in ISO 8601 format (YYYY-MM-DDTHH:MM:SSZ)")
          | _, _ =>
            (false, some "Invalid location coordinates: latitude and longitude must be numbers")
      | _ => (false, some "Invalid location: must be an object")

/-- Campaign definition, the hard-coded dictionaries of the CAMPAIGNS list. -/
structure Campaign where
  campaign_id : String
  locations : List String
  window_start : String
  window_end : String
  max_exposures_per_plate : Nat
  ad_content : String
deriving DecidableEq

/-- The hard-coded campaign catalog of process_readings/app.py. -/
def CAMPAIGNS : List Campaign :=
  [{ campaign_id := "CAMP_001", locations := ["CHECK_01", "CHECK_02"],
     window_start := "08:00", window_end := "20:00",
     max_exposures_per_plate := 3, ad_content := "AD_001" },
   { campaign_id := "CAMP_002", locations := ["CHECK_03", "CHECK_04"],
     window_start := "10:00", window_end := "22:00",
     max_exposures_per_plate := 5, ad_content := "AD_002" }]

/-- Split a character list at every colon, mirroring str.split with a
single-character separator. -/
def splitColon : List Char → List Char → List (List Char)
  | [], acc => [acc.reverse]
  | c :: rest, acc =>
    if c = ':' then acc.reverse :: splitColon rest []
    else splitColon rest (c :: acc)

/-- Embedding of the tuple unpacking `h, m = map(int, s.split(":"))`:
succeeds only when the split yields exactly two int-parsable parts;
any ValueError raised there is caught by the caller, modelled as `none`. -/
def parseHM (s : String) : Option (Int × Int) :=
  match splitColon s.toList [] with
  | [h, m] =>
    match pyIntOfChars h, pyIntOfChars m with
    | some hv, some mv => some (hv, mv)
    | _, _ => none
  | _ => none

/-- Embedding of is_in_time_window: parses both window strings to
minutes-of-day and compares inclusively; any ValueError or AttributeError
in the try block (unsplittable or non-integer window strings) is caught and
yields False. The reading time is passed as its hour and minute, the only
fields of the parsed datetime the source reads. -/
def is_in_time_window (readingHour readingMinute : Nat)
    (startTimeStr endTimeStr : String) : Bool :=
  match parseHM startTimeStr, parseHM endTimeStr with
  | some (sh, sm), some (eh, em) =>
    decide (sh * 60 + sm ≤ (readingHour * 60 + readingMinute : Int) ∧
            (readingHour * 60 + readingMinute : Int) ≤ eh * 60 + em)
  | _, _ => false

/-- Errors a store operation can raise, after the source has reclassified
driver exceptions: ValidationError (duplicate key, missing foreign key) or
DatabaseError (any other storage fault). -/
inductive StoreErr where
  | validationErr : String → StoreErr
  | databaseErr : String → StoreErr
deriving DecidableEq

/-- Campaign scan of determine_applicable_campaign: iterate the catalog in
order; for a campaign containing the checkpoint and whose window contains
the reading time, query the exposure count (which may raise) and return the
campaign when the count is below its cap, otherwise keep scanning. -/
def determineGo (counts : String → Except StoreErr Nat) (checkpoint_id : String)
    (rh rm : Nat) : List Campaign → Except StoreErr (Option Campaign)
  | [] => .ok none
  | c :: rest =>
    if c.locations.contains checkpoint_id then
      if is_in_time_window rh rm c.window_start c.window_end then
        match counts c.campaign_id with
        | .error e => .error e
        | .ok n =>
          if n < c.max_exposures_per_plate then .ok (some c)
          else determineGo counts checkpoint_id rh rm rest
      else determineGo counts checkpoint_id rh rm rest
    else determineGo counts checkpoint_id rh rm rest

/-- Embedding of determine_applicable_campaign: the scan over CAMPAIGNS,
wrapped in the except-Exception handler of the source that turns any raised
store error into a plain None result. -/
def determine_applicable_campaign (counts : String → Except StoreErr Nat)
    (checkpoint_id : String) (rh rm : Nat) : Option Campaign :=
  match determineGo counts checkpoint_id rh rm CAMPAIGNS with
  | .ok r => r
  | .error _ => none

/-- A stored reading row of the license_plate_readings table. The hour and
minute fields are the UTC time of day denoted by the timestamp string
(validation has already guaranteed that the timestamp parses). -/
structure Reading where
  reading_id : String
  timestamp : String
  license_plate : String
  checkpoint_id : String
  latitude : Dec
  longitude : Dec
  hour : Nat
  minute : Nat
deriving DecidableEq

/-- A stored row of the ad_exposures table. -/
structure Exposure where
  reading_id : String
  campaign_id : String
  ad_content : String
  exposure_timestamp : String
deriving DecidableEq

/-- The relational store: both tables. -/
structure DB where
  readings : List Reading
  exposures : List Exposure
deriving DecidableEq

/-- Embedding of save_reading: the INSERT into license_plate_readings. A
primary-key conflict on reading_id raises UniqueViolation, which the source
rolls back and reclassifies as a ValidationError naming the duplicate id. -/
def save_reading (db : DB) (r : Reading) : Except StoreErr DB :=
  if db.readings.any (fun x => x.reading_id == r.reading_id) then
    .error (.validationErr ("Duplicate reading_id: " ++ r.reading_id))
  else .ok { db with readings := db.readings ++ [r] }

/-- Embedding of get_exposure_count: SELECT COUNT of ad_exposures joined to
license_plate_readings on reading_id, filtered by plate and campaign. -/
def get_exposure_count (db : DB) (license_plate campaign_id : String) : Nat :=
  (db.exposures.filter (fun e =>
    e.campaign_id == campaign_id &&
    db.readings.any (fun r =>
      r.reading_id == e.reading_id && r.license_plate == license_plate))).length

/-- Embedding of save_exposure: the INSERT into ad_exposures. A missing
referenced reading raises ForeignKeyViolation, reclassified by the source as
a ValidationError. -/
def save_exposure (db : DB) (reading_id campaign_id ad_content timestamp : String) :
    Except StoreErr DB :=
  if db.readings.any (fun r => r.reading_id == reading_id) then
    .ok { db with exposures :=
            db.exposures ++ [⟨reading_id, campaign_id, ad_content, timestamp⟩] }
  else
    .error (.validationErr
      ("Invalid reading_id: " ++ reading_id ++ " - doesn\x27t exist in readings table"))

/-- Store interface the handler runs against: the three operations of the
source, each allowed to fail, so that infrastructure faults (a failing
count query, say) can be expressed alongside the pure relational model. -/
structure Store (σ : Type) where
  saveReading : σ → Reading → Except StoreErr σ
  getExposureCount : σ → String → String → Except StoreErr Nat
  saveExposure : σ → String → String → String → String → Except StoreErr σ

/-- The fault-free store: exactly the three SQL operations on the
relational model. -/
def pureStore : Store DB where
  saveReading := save_reading
  getExposureCount := fun db p c => .ok (get_exposure_count db p c)
  saveExposure := save_exposure

/-- Body of an API Gateway response: either the success result object
(reading_id, processed, optional ad_served as campaign_id and ad_content)
or an error object. -/
inductive RespBody where
  | result : String → Bool → Option (String × String) → RespBody
  | errorMsg : String → RespBody
deriving DecidableEq

/-- An API Gateway response: status code and body. -/
structure Response where
  statusCode : Nat
  body : RespBody
deriving DecidableEq

/-- Embedding of the post-validation core of lambda_handler: save the
reading, determine the applicable campaign, record the exposure when one
matched, and map raised errors exactly as the inner try/except does:
ValidationError to 409, DatabaseError to 500. On a failed operation the
returned state is the state before that operation (the source rolls back
the failed statement). -/
def process {σ : Type} (st : Store σ) (db : σ) (r : Reading) : Response × σ :=
  match st.saveReading db r with
  | .error (.validationErr m) => ({ statusCode := 409, body := .errorMsg m }, db)
  | .error (.databaseErr m) =>
    ({ statusCode := 500, body := .errorMsg ("Database error: " ++ m) }, db)
  | .ok db1 =>
    match determine_applicable_campaign
        (fun cid => st.getExposureCount db1 r.license_plate cid)
        r.checkpoint_id r.hour r.minute with
    | some c =>
      match st.saveExposure db1 r.reading_id c.campaign_id c.ad_content r.timestamp with
      | .ok db2 =>
        ({ statusCode := 200,
           body := .result r.reading_id true (some (c.campaign_id, c.ad_content)) }, db2)
      | .error (.validationErr m) =>
        ({ statusCode := 409, body := .errorMsg m }, db1)
      | .error (.databaseErr m) =>
        ({ statusCode := 500, body := .errorMsg ("Database error: " ++ m) }, db1)
    | none => ({ statusCode := 200, body := .result r.reading_id true none }, db1)

end ProcessReadings

namespace QueryMetrics

/-- Maximum limit for querying exposures, the fixed clamp ceiling of
query_metrics/app.py. -/
def MAX_ALLOWED_LIMIT : Int := 100

/-- Embedding of validate_query_parameters restricted to the one parameter
the source validates: absent or None limit defaults to 10; a value that
int() cannot convert is a ValueError caught and reported; a non-positive
value is rejected; a value above MAX_ALLOWED_LIMIT is replaced by
MAX_ALLOWED_LIMIT. Returns the validated limit or the error message. -/
def validate_query_parameters (params : List (String × PyVal)) :
    Except String Int :=
  match dictGet params "limit" with
  | none => .ok 10
  | some .vnone => .ok 10
  | some v =>
    match pyInt v with
    | none => .error "Parameter \x27limit\x27 must be a valid integer"
    | some l =>
      if l ≤ 0 then .error "Parameter \x27limit\x27 must be a positive integer"
      else if l > MAX_ALLOWED_LIMIT then .ok MAX_ALLOWED_LIMIT
      else .ok l

end QueryMetrics

namespace CapRace

/-- Local state of one in-flight request for a fixed (license_plate,
campaign_id) pair, once its checkpoint and time-window checks have passed:
the exposure count it has read, and whether it ended up serving the ad. -/
structure ReqLocal where
  observed : Option Nat
  served : Option Bool
deriving DecidableEq

/-- The two store operations such a request performs, in program order, as
they appear in determine_applicable_campaign and lambda_handler: first the
COUNT query of get_exposure_count, then, if the observed count was below
the cap, the INSERT plus commit of save_exposure. Each operation is a
single atomic step against the store; nothing in the source holds a lock
or transaction across the two. -/
inductive Act where
  | readCount : Act
  | insertIfBelow : Act
deriving DecidableEq

/-- Effect of one operation of one request on the shared committed exposure
count for the fixed pair, and on the request's local state. -/
def stepReq (cap dbCount : Nat) (q : ReqLocal) : Act → Nat × ReqLocal
  | .readCount => (dbCount, { q with observed := some dbCount })
  | .insertIfBelow =>
    match q.observed with
    | none => (dbCount, q)
    | some c =>
      if c < cap then (dbCount + 1, { q with served := some true })
      else (dbCount, { q with served := some false })

/-- Run an interleaving: a schedule is a list of (request index, operation)
pairs, executed left to right against the shared count. -/
def runSched (cap : Nat) : Nat × List ReqLocal → List (Nat × Act) → Nat × List ReqLocal
  | s, [] => s
  | (db, qs), (i, a) :: rest =>
    match qs[i]? with
    | none => runSched cap (db, qs) rest
    | some q =>
      runSched cap ((stepReq cap db q a).1, qs.set i (stepReq cap db q a).2) rest

/-- The racing interleaving: four concurrent eligible requests all execute
their count query before any executes its insert. -/
def raceSchedule : List (Nat × Act) :=
  [(0, .readCount), (1, .readCount), (2, .readCount), (3, .readCount),
   (0, .insertIfBelow), (1, .insertIfBelow), (2, .insertIfBelow), (3, .insertIfBelow)]

/-- Initial state: no committed exposures for the pair, four requests that
have not yet run. -/
def raceInit : Nat × List ReqLocal := (0, List.replicate 4 ⟨none, none⟩)

end CapRace

namespace Inputs

open ProcessReadings

/-- A well-formed payload matching the worked example of the spec: reading
R1 at CHECK_01, 14:30 UTC. -/
def rawR1 : List (String × PyVal) :=
  [("reading_id", .vstr "R1"), ("timestamp", .vstr "2023-06-10T14:30:00Z"),
   ("license_plate", .vstr "ABC123"), ("checkpoint_id", .vstr "CHECK_01"),
   ("location", .vdict [("latitude", .vnum ⟨377749, 4⟩),
                        ("longitude", .vnum ⟨-1224194, 4⟩)])]

/-- The same payload except that the latitude is the string "45.0", which
is not a numeric value. -/
def rawStrLat : List (String × PyVal) :=
  [("reading_id", .vstr "R1"), ("timestamp", .vstr "2023-06-10T14:30:00Z"),
   ("license_plate", .vstr "ABC123"), ("checkpoint_id", .vstr "CHECK_01"),
   ("location", .vdict [("latitude", .vstr "45.0"),
                        ("longitude", .vnum ⟨-1224194, 4⟩)])]

/-- The same payload with latitude 100, out of range. -/
def rawLat100 : List (String × PyVal) :=
  [("reading_id", .vstr "R1"), ("timestamp", .vstr "2023-06-10T14:30:00Z"),
   ("license_plate", .vstr "ABC123"), ("checkpoint_id", .vstr "CHECK_01"),
   ("location", .vdict [("latitude", .vnum ⟨100, 0⟩),
                        ("longitude", .vnum ⟨-1224194, 4⟩)])]

/-- The validated reading R1 as a store row. -/
def readingR1 : Reading :=
  { reading_id := "R1", timestamp := "2023-06-10T14:30:00Z",
    license_plate := "ABC123", checkpoint_id := "CHECK_01",
    latitude := ⟨377749, 4⟩, longitude := ⟨-1224194, 4⟩,
    hour := 14, minute := 30 }

/-- A second submission reusing the reading_id R1 with different contents
(another plate, another checkpoint, a later time). -/
def readingR1again : Reading :=
  { reading_id := "R1", timestamp := "2023-06-10T15:00:00Z",
    license_plate := "XYZ789", checkpoint_id := "CHECK_02",
    latitude := ⟨37, 0⟩, longitude := ⟨-122, 0⟩,
    hour := 15, minute := 0 }

/-- The empty store. -/
def db0 : DB := { readings := [], exposures := [] }

/-- The store after R1 was accepted and served CAMP_001. -/
def db1 : DB :=
  { readings := [readingR1],
    exposures := [⟨"R1", "CAMP_001", "AD_001", "2023-06-10T14:30:00Z"⟩] }

/-- A store whose exposure-count query fails with a DatabaseError, as when
the COUNT query of get_exposure_count hits an infrastructure fault; the
inserts behave normally. -/
def countFailStore : Store DB :=
  { pureStore with
    getExposureCount := fun _ _ _ =>
      .error (.databaseErr "Failed to get exposure count: connection reset") }

end Inputs

/-- Eligibility of one campaign for a reading, given a fault-free exposure
count per campaign id: the three conditions of the scan in
determine_applicable_campaign. -/
def ProcessReadings.eligible (counts : String → Nat) (checkpoint_id : String)
    (rh rm : Nat) (c : ProcessReadings.Campaign) : Bool :=
  c.locations.contains checkpoint_id &&
  ProcessReadings.is_in_time_window rh rm c.window_start c.window_end &&
  decide (counts c.campaign_id < c.max_exposures_per_plate)

/-- All error messages validate_reading can return. Each one names the
failing field (the coordinates message names both coordinate fields of the
location, the timestamp message names the timestamp, and so on). -/
def ProcessReadings.validationMessages : List String :=
  ["Missing required field: reading_id",
   "Missing required field: timestamp",
   "Missing required field: license_plate",
   "Missing required field: checkpoint_id",
   "Missing required field: location",
   "Invalid reading_id: must be a non-empty string",
   "Invalid license_plate: must be a non-empty string",
   "Invalid checkpoint_id: must be a non-empty string",
   "Invalid location: must be an object",
   "Invalid location: must contain latitude and longitude",
   "Invalid latitude: must be between -90 and 90",
   "Invalid longitude: must be between -180 and 180",
   "Invalid location coordinates: latitude and longitude must be numbers",
   "Invalid timestamp: must be in ISO 8601 format (YYYY-MM-DDTHH:MM:SSZ)"]

section Helpers

open ProcessReadings

/-- The boolean comparison on scaled decimals agrees with the rational
order of the denoted values. -/
theorem Dec.blt_iff (a b : Dec) : a.blt b = true ↔ a.toRat < b.toRat := by
  simp only [Dec.blt, Dec.toRat, decide_eq_true_eq]
  rw [div_lt_div_iff₀ (by positivity) (by positivity)]
  constructor
  · intro h; exact_mod_cast h
  · intro h; exact_mod_cast h

/-- Value of an integer scaled decimal. -/
theorem Dec.toRat_ofInt (n : Int) : (Dec.ofInt n).toRat = (n : ℚ) := by
  simp [Dec.ofInt, Dec.toRat]

/-- Any campaign the scan returns passed the time-window test. -/
theorem determineGo_some_in_window (counts : String → Except StoreErr Nat)
    (cp : String) (rh rm : Nat) :
    ∀ (catalog : List Campaign) (c : Campaign),
      determineGo counts cp rh rm catalog = Except.ok (some c) →
      is_in_time_window rh rm c.window_start c.window_end = true := by
  intro catalog
  induction catalog with
  | nil => intro c h; simp [determineGo] at h
  | cons a rest ih =>
    intro c h
    rw [determineGo] at h
    by_cases h1 : a.locations.contains cp
    · rw [if_pos h1] at h
      by_cases h2 : is_in_time_window rh rm a.window_start a.window_end
      · rw [if_pos h2] at h
        cases hcnt : counts a.campaign_id with
        | error e => rw [hcnt] at h; cases h
        | ok n =>
          rw [hcnt] at h
          by_cases h3 : n < a.max_exposures_per_plate
          · simp only [h3, if_true, Except.ok.injEq, Option.some.injEq] at h
            exact h ▸ h2
          · simp only [h3, if_false] at h
            exact ih c h
      · rw [if_neg h2] at h; exact ih c h
    · rw [if_neg h1] at h; exact ih c h

/-- The scan with a fault-free count function is exactly the first match
of the eligibility predicate, in catalog order. -/
theorem determineGo_eq_find (counts : String → Nat) (cp : String) (rh rm : Nat) :
    ∀ catalog : List Campaign,
      determineGo (fun cid => Except.ok (counts cid)) cp rh rm catalog =
        Except.ok (catalog.find? (eligible counts cp rh rm)) := by
  intro catalog
  induction catalog with
  | nil => rfl
  | cons a rest ih =>
    by_cases h1 : cp ∈ a.locations
    · by_cases h2 : is_in_time_window rh rm a.window_start a.window_end = true
      · by_cases h3 : counts a.campaign_id < a.max_exposures_per_plate
        · simp [determineGo, List.find?, eligible, h1, h2, h3]
        · simp [determineGo, List.find?, eligible, h1, h2, h3, ih]
      · have h2' : is_in_time_window rh rm a.window_start a.window_end = false := by
          simpa using h2
        simp [determineGo, List.find?, eligible, h1, h2', ih]
    · simp [determineGo, List.find?, eligible, h1, ih]

end Helpers

section Claims

open ProcessReadings

/-- C1: the per-plate exposure cap does NOT hold under concurrency. The
check-then-act scan of determine_applicable_campaign reads the committed
count (get_exposure_count) and inserts the exposure (save_exposure) as two
separate atomic store operations with no lock or shared transaction, so for
CAMP_001 (cap 3) there is an interleaving of cap + 1 = 4 concurrent
eligible requests — all four count reads before any insert — that commits
4 exposures, exceeds the cap, and produces zero (not one) no-ad outcomes. -/
theorem exposure_cap_race_violation :
    (CAMPAIGNS.find? (fun c => c.campaign_id == "CAMP_001")).map
        (fun c => c.max_exposures_per_plate) = some 3 ∧
    is_in_time_window 14 30 "08:00" "20:00" = true ∧
    CAMPAIGNS.any (fun c => c.locations.contains "CHECK_01") = true ∧
    (CapRace.runSched 3 CapRace.raceInit CapRace.raceSchedule).1 = 4 ∧
    ¬ (CapRace.runSched 3 CapRace.raceInit CapRace.raceSchedule).1 ≤ 3 ∧
    ((CapRace.runSched 3 CapRace.raceInit CapRace.raceSchedule).2.filter
        (fun q => q.served == some false)).length = 0 ∧
    ((CapRace.runSched 3 CapRace.raceInit CapRace.raceSchedule).2.filter
        (fun q => q.served == some true)).length = 4 := by
  decide

/-- C2: a store failure raised while the eligibility scan runs is NOT
surfaced as a server fault. When the exposure-count query fails with a
DatabaseError, determine_applicable_campaign swallows the exception and
returns None, and the handler answers HTTP 200 with ad_served = null — the
same response shape as a genuine no-eligible-campaign outcome — although
the identical reading is served CAMP_001 when the store works. -/
theorem store_failure_reported_as_success :
    process Inputs.countFailStore Inputs.db0 Inputs.readingR1 =
      ({ statusCode := 200, body := .result "R1" true none },
       { readings := [Inputs.readingR1], exposures := [] }) ∧
    (process pureStore Inputs.db0 Inputs.readingR1).1 =
      { statusCode := 200,
        body := .result "R1" true (some ("CAMP_001", "AD_001")) } := by
  decide

/-- C3: with a fault-free exposure count, determine_applicable_campaign
returns exactly the first campaign of the catalog, in order, whose
locations contain the checkpoint, whose window contains the reading time
and whose count is below its cap (List.find? of the eligibility predicate);
a campaign failing only the cap test therefore does not stop the scan, and
when no campaign is eligible the result is None, not an error. -/
theorem determine_first_eligible (counts : String → Nat) (cp : String) (rh rm : Nat) :
    (∀ catalog : List Campaign,
      determineGo (fun cid => Except.ok (counts cid)) cp rh rm catalog =
        Except.ok (catalog.find? (eligible counts cp rh rm))) ∧
    determine_applicable_campaign (fun cid => Except.ok (counts cid)) cp rh rm =
      CAMPAIGNS.find? (eligible counts cp rh rm) := by
  refine ⟨determineGo_eq_find counts cp rh rm, ?_⟩
  rw [determine_applicable_campaign, determineGo_eq_find counts cp rh rm]

/-- C4: re-submitting an already stored reading_id makes save_reading fail
with the distinct duplicate ValidationError, which the handler maps to a
409 conflict response; the store is returned unchanged — the stored reading
is not overwritten and no Reading or Exposure row is added — even when the
re-submission carries different field values. -/
theorem duplicate_reading_conflict (db : DB) (r : Reading)
    (h : db.readings.any (fun x => x.reading_id == r.reading_id) = true) :
    process pureStore db r =
      ({ statusCode := 409,
         body := .errorMsg ("Duplicate reading_id: " ++ r.reading_id) }, db) := by
  rw [process]
  have hsr : pureStore.saveReading db r =
      .error (.validationErr ("Duplicate reading_id: " ++ r.reading_id)) := by
    simp [pureStore, save_reading, h]
  rw [hsr]

/-- Witness for C4 at a concrete store: R1 is stored; re-submitting the id
R1 with different contents yields the 409 duplicate outcome and leaves the
store unchanged. -/
theorem duplicate_reading_conflict_witness :
    Inputs.db1.readings.any
        (fun x => x.reading_id == Inputs.readingR1again.reading_id) = true ∧
    process pureStore Inputs.db1 Inputs.readingR1again =
      ({ statusCode := 409, body := .errorMsg "Duplicate reading_id: R1" },
       Inputs.db1) :=
  ⟨by decide, duplicate_reading_conflict Inputs.db1 Inputs.readingR1again (by decide)⟩

/-- C5 counterexample: for a campaign whose configured window wraps past
midnight (22:00 to 08:00), a reading whose minute-of-day equals the start
minute (22:00) is NOT in window, contradicting the claim as stated for
every campaign. -/
theorem wrapped_boundary_not_in_window :
    parseHM "22:00" = some (22, 0) ∧
    parseHM "08:00" = some (8, 0) ∧
    ((22 : Nat) * 60 + (0 : Nat) : Int) = 22 * 60 + 0 ∧
    is_in_time_window 22 0 "22:00" "08:00" = false := by
  refine ⟨by decide, by decide, by decide, by decide⟩

/-- C5 amended: for every campaign whose window strings parse and whose
window does not wrap (start minutes at most end minutes), the membership
test is exactly the inclusive chained comparison, and a reading whose
minute-of-day equals the start or the end minute is in window. -/
theorem boundary_inclusive_in_window (rh rm : Nat) (s e : String) (sh sm eh em : Int)
    (hs : parseHM s = some (sh, sm)) (he : parseHM e = some (eh, em))
    (hw : sh * 60 + sm ≤ eh * 60 + em)
    (hb : ((rh : Int) * 60 + rm = sh * 60 + sm) ∨ ((rh : Int) * 60 + rm = eh * 60 + em)) :
    is_in_time_window rh rm s e =
      decide (sh * 60 + sm ≤ (rh : Int) * 60 + rm ∧ (rh : Int) * 60 + rm ≤ eh * 60 + em) ∧
    is_in_time_window rh rm s e = true := by
  have heq : is_in_time_window rh rm s e =
      decide (sh * 60 + sm ≤ (rh : Int) * 60 + rm ∧ (rh : Int) * 60 + rm ≤ eh * 60 + em) := by
    rw [is_in_time_window, hs, he]
  refine ⟨heq, ?_⟩
  rw [heq, decide_eq_true_eq]
  omega

/-- Witness for C5 amended: the non-wrapped window 08:00 to 20:00 of
CAMP_001, with a reading at the 08:00 boundary, is in window. -/
theorem boundary_inclusive_in_window_witness :
    is_in_time_window 8 0 "08:00" "20:00" = true :=
  (boundary_inclusive_in_window 8 0 "08:00" "20:00" 8 0 20 0 (by decide) (by decide)
    (by decide) (Or.inl (by decide))).2

/-- C6: a campaign whose parsed window wraps past midnight (start minutes
strictly greater than end minutes) has no reading time in window, and the
campaign scan never returns such a campaign, for any catalog, checkpoint
and exposure counts. -/
theorem wrapped_window_never_matches (s e : String) (sh sm eh em : Int)
    (hs : parseHM s = some (sh, sm)) (he : parseHM e = some (eh, em))
    (hw : eh * 60 + em < sh * 60 + sm) :
    (∀ rh rm : Nat, is_in_time_window rh rm s e = false) ∧
    (∀ (counts : String → Except StoreErr Nat) (cp : String) (rh rm : Nat)
       (catalog : List Campaign) (c : Campaign),
       c.window_start = s → c.window_end = e →
       determineGo counts cp rh rm catalog ≠ Except.ok (some c)) := by
  have hfalse : ∀ rh rm : Nat, is_in_time_window rh rm s e = false := by
    intro rh rm
    rw [is_in_time_window, hs, he]
    rw [decide_eq_false_iff_not]
    omega
  refine ⟨hfalse, ?_⟩
  intro counts cp rh rm catalog c hws hwe hcontra
  have hwin := determineGo_some_in_window counts cp rh rm catalog c hcontra
  rw [hws, hwe, hfalse rh rm] at hwin
  cases hwin

/-- Witness for C6: the wrapped window 22:00 to 06:00 matches no reading
time, here 22:30, which lies after its start. -/
theorem wrapped_window_never_matches_witness :
    is_in_time_window 22 30 "22:00" "06:00" = false :=
  (wrapped_window_never_matches "22:00" "06:00" 22 0 6 0 (by decide) (by decide)
    (by decide)).1 22 30

/-- C10: the membership test is total by construction (every exception the
try block can raise is modelled inside parseHM as a `none` result, caught
and turned into the False branch); whenever either window string fails to
parse as two colon-separated integers the result is false, and the scan
never returns a campaign carrying such a window string. -/
theorem malformed_window_never_matches (s e : String)
    (h : parseHM s = none ∨ parseHM e = none) :
    (∀ rh rm : Nat, is_in_time_window rh rm s e = false) ∧
    (∀ (counts : String → Except StoreErr Nat) (cp : String) (rh rm : Nat)
       (catalog : List Campaign) (c : Campaign),
       c.window_start = s → c.window_end = e →
       determineGo counts cp rh rm catalog ≠ Except.ok (some c)) := by
  have hfalse : ∀ rh rm : Nat, is_in_time_window rh rm s e = false := by
    intro rh rm
    rw [is_in_time_window]
    rcases h with h | h
    · rw [h]
    · rw [h]
      cases hs : parseHM s with
      | none => rfl
      | some p =>
        cases p
        rfl
  refine ⟨hfalse, ?_⟩
  intro counts cp rh rm catalog c hws hwe hcontra
  have hwin := determineGo_some_in_window counts cp rh rm catalog c hcontra
  rw [hws, hwe, hfalse rh rm] at hwin
  cases hwin

/-- Witness for C10: the window string "8am" (no colon) does not parse, so
no reading time is in such a window. -/
theorem malformed_window_never_matches_witness :
    is_in_time_window 12 0 "8am" "20:00" = false :=
  (malformed_window_never_matches "8am" "20:00" (Or.inl (by decide))).1 12 0

/-- C7 counterexample: a latitude that is a string, hence not a numeric
value, passes validation whenever the string is float-coercible — the
source coerces with float("45.0") instead of requiring a number — so the
claim that every non-numeric coordinate fails validation is false. -/
theorem numeric_string_latitude_accepted :
    dictGet Inputs.rawStrLat "location" =
      some (.vdict [("latitude", .vstr "45.0"),
                    ("longitude", .vnum ⟨-1224194, 4⟩)]) ∧
    validate_reading Inputs.rawStrLat = (true, none) :=
  ⟨rfl, by decide⟩

/-- C7 amended: once the checks preceding the location stage pass and both
coordinate keys are present, a latitude or longitude that float() cannot
coerce (numeric strings and booleans do coerce) fails with the
location-coordinates message, which names both coordinate fields rather
than the single offending one; a coordinate that coerces to a value out of
range fails with the message specific to the offending field. -/
theorem coordinate_checks (reading loc : List (String × PyVal)) (latv lngv : PyVal)
    (hreq : required_fields.find? (fun f => (dictGet reading f).isNone) = none)
    (hrid : isNonEmptyStr ((dictGet reading "reading_id").getD .vnone) = true)
    (hpl : isNonEmptyStr ((dictGet reading "license_plate").getD .vnone) = true)
    (hcp : isNonEmptyStr ((dictGet reading "checkpoint_id").getD .vnone) = true)
    (hloc : (dictGet reading "location").getD .vnone = .vdict loc)
    (hlat : dictGet loc "latitude" = some latv)
    (hlng : dictGet loc "longitude" = some lngv) :
    (pyFloat latv = none ∨ pyFloat lngv = none →
      validate_reading reading =
        (false, some "Invalid location coordinates: latitude and longitude must be numbers")) ∧
    (∀ lat lng : Dec, pyFloat latv = some lat → pyFloat lngv = some lng →
      (lat.toRat < -90 ∨ 90 < lat.toRat) →
      validate_reading reading =
        (false, some "Invalid latitude: must be between -90 and 90")) ∧
    (∀ lat lng : Dec, pyFloat latv = some lat → pyFloat lngv = some lng →
      ¬(lat.toRat < -90 ∨ 90 < lat.toRat) → (lng.toRat < -180 ∨ 180 < lng.toRat) →
      validate_reading reading =
        (false, some "Invalid longitude: must be between -180 and 180")) := by
  have hb : ∀ (d : Dec) (k : Int),
      (Dec.blt d (.ofInt k) || Dec.blt (.ofInt (-k)) d) = true ↔
        (d.toRat < (k : ℚ) ∨ -(k : ℚ) < d.toRat) := by
    intro d k
    rw [Bool.or_eq_true, Dec.blt_iff, Dec.blt_iff, Dec.toRat_ofInt, Dec.toRat_ofInt]
    push_cast
    tauto
  refine ⟨?_, ?_, ?_⟩
  · intro h
    rcases h with h | h
    · simp [validate_reading, hreq, hrid, hpl, hcp, hloc, hlat, hlng, h]
    · cases hpfa : pyFloat latv with
      | none => simp [validate_reading, hreq, hrid, hpl, hcp, hloc, hlat, hlng, hpfa]
      | some lat =>
        simp [validate_reading, hreq, hrid, hpl, hcp, hloc, hlat, hlng, hpfa, h]
  · intro lat lng hpfa hpfb hr
    have hr' : (Dec.blt lat (.ofInt (-90)) || Dec.blt (.ofInt 90) lat) = true := by
      have := (hb lat (-90)).mpr
      simp only [neg_neg] at this
      exact this (by exact_mod_cast hr)
    simp [validate_reading, hreq, hrid, hpl, hcp, hloc, hlat, hlng, hpfa, hpfb, hr']
  · intro lat lng hpfa hpfb hnr hr
    have hnr' : (Dec.blt lat (.ofInt (-90)) || Dec.blt (.ofInt 90) lat) = false := by
      rw [Bool.eq_false_iff]
      intro hb'
      apply hnr
      have := (hb lat (-90)).mp hb'
      simp only [neg_neg] at this
      exact_mod_cast this
    have hr' : (Dec.blt lng (.ofInt (-180)) || Dec.blt (.ofInt 180) lng) = true := by
      have := (hb lng (-180)).mpr
      simp only [neg_neg] at this
      exact this (by exact_mod_cast hr)
    simp [validate_reading, hreq, hrid, hpl, hcp, hloc, hlat, hlng, hpfa, hpfb, hnr', hr']

/-- Witness for C7 amended: latitude 100 is rejected with the message
citing latitude, matching the worked example of the spec. -/
theorem coordinate_checks_witness :
    validate_reading Inputs.rawLat100 =
      (false, some "Invalid latitude: must be between -90 and 90") :=
  (coordinate_checks Inputs.rawLat100
      [("latitude", .vnum ⟨100, 0⟩), ("longitude", .vnum ⟨-1224194, 4⟩)]
      (.vnum ⟨100, 0⟩) (.vnum ⟨-1224194, 4⟩)
      (by decide) (by decide) (by decide) (by decide) rfl rfl
      rfl).2.1 ⟨100, 0⟩ ⟨-1224194, 4⟩ rfl rfl
    (Or.inr (by norm_num [Dec.toRat]))

/-- C8: on every input dictionary, however malformed, the validator —
whose embedding gives every operation the source wraps in try/except its
raising behavior as an Option result, so totality of the Lean function is
totality of the Python one on dict inputs — returns either success or a
structured failure whose message is one of the fixed field-naming messages;
the checks run in source order with the first failure winning. -/
theorem validator_total_structured (reading : List (String × PyVal)) :
    validate_reading reading = (true, none) ∨
      ∃ m, m ∈ validationMessages ∧ validate_reading reading = (false, some m) := by
  unfold validate_reading
  split
  · next f hf =>
    right
    have hmem : f ∈ required_fields := List.mem_of_find?_eq_some hf
    refine ⟨"Missing required field: " ++ f, ?_, rfl⟩
    simp only [required_fields, List.mem_cons, List.not_mem_nil, or_false] at hmem
    rcases hmem with h | h | h | h | h <;> subst h <;> decide
  · repeat' split
    all_goals first
      | (left; rfl)
      | (right; refine ⟨_, ?_, rfl⟩; decide)

/-- C9: the validated result-size limit of validate_query_parameters never
exceeds the fixed ceiling MAX_ALLOWED_LIMIT, and any caller-supplied limit
that converts to an integer above the ceiling is replaced by exactly the
ceiling. -/
theorem limit_clamped (params : List (String × PyVal)) :
    (∀ l : Int, QueryMetrics.validate_query_parameters params = .ok l →
      l ≤ QueryMetrics.MAX_ALLOWED_LIMIT) ∧
    (∀ (v : PyVal) (l : Int), dictGet params "limit" = some v → pyInt v = some l →
      QueryMetrics.MAX_ALLOWED_LIMIT < l →
      QueryMetrics.validate_query_parameters params =
        .ok QueryMetrics.MAX_ALLOWED_LIMIT) := by
  constructor
  · intro l h
    unfold QueryMetrics.validate_query_parameters at h
    simp only [QueryMetrics.MAX_ALLOWED_LIMIT] at h ⊢
    split at h
    · injection h with h2; omega
    · injection h with h2; omega
    · split at h
      · cases h
      · split at h
        · cases h
        · split at h
          · injection h with h2; omega
          · next hle =>
            injection h with h2
            omega
  · intro v l hv hl hgt
    simp only [QueryMetrics.MAX_ALLOWED_LIMIT] at hgt
    unfold QueryMetrics.validate_query_parameters
    rw [hv]
    cases v with
    | vnone => simp [pyInt] at hl
    | vstr s =>
      simp only [hl, QueryMetrics.MAX_ALLOWED_LIMIT]
      rw [if_neg (by omega), if_pos (by omega)]
    | vnum d =>
      simp only [hl, QueryMetrics.MAX_ALLOWED_LIMIT]
      rw [if_neg (by omega), if_pos (by omega)]
    | vbool b =>
      simp only [hl, QueryMetrics.MAX_ALLOWED_LIMIT]
      rw [if_neg (by omega), if_pos (by omega)]
    | vdict d => simp [pyInt] at hl
    | vlist xs => simp [pyInt] at hl

/-- Witness for C9: the requested limit 500 is clamped to the ceiling 100. -/
theorem limit_clamped_witness :
    QueryMetrics.validate_query_parameters [("limit", PyVal.vstr "500")] =
      .ok QueryMetrics.MAX_ALLOWED_LIMIT ∧
    QueryMetrics.MAX_ALLOWED_LIMIT = 100 :=
  ⟨(limit_clamped [("limit", PyVal.vstr "500")]).2 (PyVal.vstr "500") 500
      rfl (by decide) (by decide), by decide⟩

end Claims
